import Mathlib

/-!
Verification of the part-resolution and merge pipeline of the
HW-Module-FMTransceiver repository (scripts/inventree_sync and
scripts/part_importer.py), as a shallow embedding in Lean 4.

Python dicts with integer keys are modelled as insertion-ordered
association lists with unique keys (`upsert` mirrors `d[k] = v`).
Fallible calls to the backend and the supplier catalogs are modelled as
explicit oracle functions returning `Option`/`Except` values.
-/

namespace FMTransceiver

/-- Embeds the dataclass `PartData` from `scripts/inventree_sync/models.py`
(lines 12-28; an identical copy lives in `scripts/part_importer.py`).
`price_breaks` is the dict mapping minimum order quantity to unit price;
`parameters` the dict of parameter name to value. -/
structure PartData where
  mpn : String := ""
  manufacturer : String := ""
  description : String := ""
  image_url : String := ""
  datasheet_url : String := ""
  supplier_link : String := ""
  lcsc_sku : String := ""
  mouser_sku : String := ""
  category_path : List String := []
  parameters : List (String × String) := []
  price_breaks : List (Int × Rat) := []
  currency : String := "EUR"
  package : String := ""
deriving Repr, DecidableEq

/-- Python dict assignment `d[k] = v` on an insertion-ordered association
list: replace the value in place when the key exists, else append. -/
def upsert (m : List (Int × Rat)) (k : Int) (v : Rat) : List (Int × Rat) :=
  if m.any fun p => p.1 = k then
    m.map fun p => if p.1 = k then (k, v) else p
  else m ++ [(k, v)]

/-- The both-records-present merge section of `_fetch_and_merge`
(`scripts/inventree_sync/part_manager.py` lines 72-82, identical in
`_fetch_part_data` of `scripts/part_importer.py`): LCSC (`primary`) is the
base; image URL, datasheet URL, price breaks together with currency, and
description are taken from Mouser (`secondary`) exactly when the primary
value is empty (Python truthiness of `str`/`dict`). -/
def mergeBoth (primary secondary : PartData) : PartData :=
  let r0 := primary
  let r1 := if r0.image_url = "" then { r0 with image_url := secondary.image_url } else r0
  let r2 := if r1.datasheet_url = "" then { r1 with datasheet_url := secondary.datasheet_url } else r1
  let r3 :=
    if r2.price_breaks = [] then
      { r2 with price_breaks := secondary.price_breaks, currency := secondary.currency }
    else r2
  let r4 := if r3.description = "" then { r3 with description := secondary.description } else r3
  r4

/-- The SKU stamping at the end of `_fetch_and_merge` (part_manager.py
lines 85-86): both SKU fields are overwritten with the original input
SKUs of the call. -/
def stampSkus (r : PartData) (lcsc_sku mouser_sku : String) : PartData :=
  { r with lcsc_sku := lcsc_sku, mouser_sku := mouser_sku }

/-- The merge section of `_fetch_and_merge` (part_manager.py lines 64-87)
as a function of the two fetch results and the two input SKUs. -/
def mergeFetched (lcsc_data mouser_data : Option PartData)
    (lcsc_sku mouser_sku : String) : Option PartData :=
  match lcsc_data, mouser_data with
  | none, none => none
  | none, some m => some (stampSkus m lcsc_sku mouser_sku)
  | some l, none => some (stampSkus l lcsc_sku mouser_sku)
  | some l, some m => some (stampSkus (mergeBoth l m) lcsc_sku mouser_sku)

/-- Object-state view of the same merge section.  In the Python source the
local `result` is an alias of one of the fetched record objects and the
field assignments mutate that object in place.  The triple returned is
(value of `result`, final state of the object `lcsc_data` points to,
final state of the object `mouser_data` points to). -/
def mergeStates (lcsc_data mouser_data : Option PartData)
    (lcsc_sku mouser_sku : String) :
    Option PartData × Option PartData × Option PartData :=
  match lcsc_data, mouser_data with
  | none, none => (none, none, none)
  | none, some m =>
      let r := stampSkus m lcsc_sku mouser_sku
      (some r, none, some r)
  | some l, none =>
      let r := stampSkus l lcsc_sku mouser_sku
      (some r, some r, none)
  | some l, some m =>
      let r := stampSkus (mergeBoth l m) lcsc_sku mouser_sku
      (some r, some r, some m)

/-! ### Python string primitives used by the scripts -/

/-- The whitespace class of Python `str.strip()` and of the regex class
`\s`, restricted to ASCII (all inputs handled by the scripts are ASCII). -/
def isPySpace (c : Char) : Bool :=
  c = ' ' ∨ c = '\t' ∨ c = '\n' ∨ c = '\r' ∨ c = '\x0b' ∨ c = '\x0c'

/-- Python `str.strip()` with no argument: drop leading and trailing
whitespace. -/
def pyStrip (s : String) : String :=
  String.mk (((s.data.dropWhile isPySpace).reverse.dropWhile isPySpace).reverse)

/-- The regex class `\d`, ASCII digits. -/
def isPyDigit (c : Char) : Bool := '0' ≤ c ∧ c ≤ '9'

/-- The regex class `\w` (ASCII): letters, digits and the underscore. -/
def isWordChar (c : Char) : Bool := c.isAlpha ∨ c.isDigit ∨ c = '_'

/-- Value of a list of ASCII digit characters read in base 10. -/
def digitsToNat (cs : List Char) : Nat :=
  cs.foldl (fun n c => 10 * n + (c.toNat - 48)) 0

/-- Python `str.rfind`: index of the last occurrence of `c`, `-1` when
absent. -/
def rfindIdx (cs : List Char) (c : Char) : Int :=
  match cs.reverse.findIdx? fun x => x = c with
  | none => -1
  | some j => (cs.length : Int) - 1 - (j : Int)

/-! ### Price parsing (`MouserFetcher._parse_price`, fetchers.py 248-265) -/

/-- Python `float()` restricted to strings over digits and the period,
the only alphabet reachable in `_parse_price` after the separator
normalization: it accepts at most one period and at least one digit
(`"12"`, `"12."`, `".5"`), and fails (`ValueError`, modelled as `none`)
otherwise (`""`, `"."`, `"1.2.3"`). -/
def pyFloatDigitsDot (cs : List Char) : Option Rat :=
  if (cs.all fun c => isPyDigit c ∨ c = '.') ∧ cs.count '.' ≤ 1 ∧ cs.any isPyDigit then
    let ip := cs.takeWhile fun c => c ≠ '.'
    let fp := (cs.dropWhile fun c => c ≠ '.').drop 1
    some ((digitsToNat ip : Rat) + (digitsToNat fp : Rat) / ((10 : Rat) ^ fp.length))
  else none

/-- Embeds `MouserFetcher._parse_price` (fetchers.py lines 248-265,
identical copy in part_importer.py): strip the input, delete every
character that is not a digit, comma or period, return `0.0` when
nothing is left; otherwise compare the rightmost comma position with the
rightmost period position; when the comma is further right treat the
string as European format (delete periods, turn commas into periods),
otherwise delete the commas; finally apply `float()`.  `none` models a
`ValueError` escaping the function. -/
def _parse_price (price_str : String) : Option Rat :=
  let cleaned := (pyStrip price_str).data.filter fun c => isPyDigit c ∨ c = ',' ∨ c = '.'
  if cleaned = [] then some 0
  else
    let last_comma := rfindIdx cleaned ','
    let last_dot := rfindIdx cleaned '.'
    if last_dot < last_comma then
      pyFloatDigitsDot ((cleaned.filter fun c => c ≠ '.').map fun c => if c = ',' then '.' else c)
    else
      pyFloatDigitsDot (cleaned.filter fun c => c ≠ ',')

/-- Validity of a digit run for Python `int()`: digits possibly separated
by single underscores, starting and ending with a digit (continuation
after the first character). -/
def intDigitsGo : List Char → Bool
  | [] => true
  | '_' :: c :: rest => isPyDigit c ∧ intDigitsGo rest
  | '_' :: [] => false
  | c :: rest => isPyDigit c ∧ intDigitsGo rest

/-- Validity of a complete digit run for Python `int()`. -/
def pyIntValid : List Char → Bool
  | [] => false
  | c :: rest => isPyDigit c ∧ intDigitsGo rest

/-- Python `int()` applied to a string: optional surrounding whitespace,
optional sign, digits with optional single underscore separators.
`none` models a `ValueError`. -/
def pyInt? (s : String) : Option Int :=
  match (pyStrip s).data with
  | '+' :: rest =>
    if pyIntValid rest then some ((digitsToNat (rest.filter fun c => c ≠ '_') : Int)) else none
  | '-' :: rest =>
    if pyIntValid rest then some (-(digitsToNat (rest.filter fun c => c ≠ '_') : Int)) else none
  | cs => if pyIntValid cs then some ((digitsToNat (cs.filter fun c => c ≠ '_') : Int)) else none

/-- One raw price-break object of the Mouser API response.  A `none`
field models an absent JSON key: `pb["Quantity"]` raises `KeyError`
when absent, `pb.get("Price", "0")` and `pb.get("Currency")` use
defaults. -/
structure RawPriceBreak where
  quantity : Option String := none
  price : Option String := none
  currency : Option String := none
deriving Repr, DecidableEq

/-- One iteration of the price-break loop of `MouserFetcher.fetch`
(fetchers.py lines 224-234): parse the quantity, parse the price, record
the pair and update the currency; any `KeyError`/`ValueError` is caught
and the row is skipped, leaving the state unchanged. -/
def mouserRowStep (st : List (Int × Rat) × String) (r : RawPriceBreak) :
    List (Int × Rat) × String :=
  match r.quantity with
  | none => st
  | some qs =>
    match pyInt? qs with
    | none => st
    | some q =>
      match _parse_price (r.price.getD "0") with
      | none => st
      | some p =>
        let m := upsert st.1 q p
        match r.currency with
        | some c => if c = "" then (m, st.2) else (m, c)
        | none => (m, st.2)

/-- The complete price-break loop of `MouserFetcher.fetch`: fold over the
raw rows starting from the empty dict and the default currency `EUR`. -/
def mouserPriceBreaks (rows : List RawPriceBreak) : List (Int × Rat) × String :=
  rows.foldl mouserRowStep ([], "EUR")

/-- A raw row is well formed when the quantity key is present, the
quantity parses as an integer and the price string parses. -/
def wellFormedRow (r : RawPriceBreak) : Bool :=
  match r.quantity with
  | none => false
  | some qs => (pyInt? qs).isSome ∧ (_parse_price (r.price.getD "0")).isSome

/-! ### Name derivation (`categories.py` lines 97-134) -/

/-- Scanner for `re.sub(r"\s*/\s*", "/", s)`: whitespace pending before a
slash is discarded, whitespace directly after a slash is discarded, and
every slash is kept; all other characters pass through unchanged.  The
first argument is true while skipping whitespace after a slash, the
second collects pending whitespace not yet known to precede a slash. -/
def collapseSlashAux : Bool → List Char → List Char → List Char
  | _, pending, [] => pending.reverse
  | afterSlash, pending, c :: rest =>
    if isPySpace c then
      if afterSlash then collapseSlashAux true pending rest
      else collapseSlashAux false (c :: pending) rest
    else if c = '/' then '/' :: collapseSlashAux true [] rest
    else pending.reverse ++ c :: collapseSlashAux false [] rest

/-- Scanner for `re.sub(r"\s+", " ", s)`: every maximal whitespace run
becomes a single space.  The flag records whether the previous character
was whitespace. -/
def collapseWsAux : Bool → List Char → List Char
  | _, [] => []
  | inRun, c :: rest =>
    if isPySpace c then
      if inRun then collapseWsAux true rest else ' ' :: collapseWsAux true rest
    else c :: collapseWsAux false rest

/-- The value normalization of `generate_part_name` (categories.py lines
119-121): strip, collapse `a / b` separator patterns into `a/b`, collapse
repeated whitespace into one space, strip again. -/
def normalizeValue (v : String) : String :=
  pyStrip (String.mk (collapseWsAux false (collapseSlashAux false [] (pyStrip v).data)))

/-- Group scanner for the non-greedy regex `(?:C|R|L)_(\w+?)_` after the
first two characters: return the shortest nonempty word-character run
followed by an underscore. -/
def grabGroupGo (acc : List Char) : List Char → Option (List Char)
  | [] => none
  | c :: rest =>
    if c = '_' then some acc.reverse
    else if isWordChar c then grabGroupGo (c :: acc) rest
    else none

/-- Starts the group scan: the group needs at least one word character. -/
def grabGroup : List Char → Option (List Char)
  | [] => none
  | c :: rest => if isWordChar c then grabGroupGo [c] rest else none

/-- The complete match attempt of `re.match(r"(?:C|R|L)_(\w+?)_", fp)`:
the first character is `C`, `R` or `L`, the second an underscore, and
the group scan succeeds on the remainder. -/
def extract_package_core (l : List Char) : Option (List Char) :=
  match l with
  | c :: d :: rest =>
    if d = '_' ∧ (c = 'C' ∨ c = 'R' ∨ c = 'L') then grabGroup rest else none
  | _ => none

/-- `fp.split("_")[0]`: the characters before the first underscore. -/
def firstUnderscoreSegment (l : List Char) : List Char :=
  l.takeWhile fun c => c ≠ '_'

/-- Embeds `extract_package` (categories.py lines 97-105, identical copy
in part_importer.py): when the footprint matches `(?:C|R|L)_(\w+?)_` at
the start, return the captured group, else the first
underscore-delimited segment. -/
def extract_package (footprint : String) : String :=
  match extract_package_core footprint.data with
  | some g => String.mk g
  | none => String.mk (firstUnderscoreSegment footprint.data)

/-- Embeds `generate_part_name` (categories.py lines 108-134, identical
copy in part_importer.py). -/
def generate_part_name (kicad_part kicad_value footprint : String) : String :=
  let val := normalizeValue kicad_value
  if kicad_part = "R" then "R " ++ val ++ " " ++ extract_package footprint
  else if kicad_part = "C" then "C " ++ val ++ " " ++ extract_package footprint
  else if kicad_part = "C_Polarized" then "CP " ++ val
  else if kicad_part = "L" ∨ kicad_part = "L_Iron" then "L " ++ val
  else if kicad_part = "Crystal" then "XTAL " ++ val
  else val

/-! ### Category resolution (`categories.py` lines 20-94 and 170-191) -/

/-- Embeds the table `KICAD_CATEGORY_MAP` (categories.py lines 20-94;
the copy in part_importer.py lines 358-433 is identical). -/
def KICAD_CATEGORY_MAP : List (String × List String) := [
  ("R", ["Resistors", "Surface Mount"]),
  ("R_Small", ["Resistors", "Surface Mount"]),
  ("R_Network", ["Resistors", "Surface Mount"]),
  ("RN", ["Resistors", "Surface Mount"]),
  ("R_Potentiometer", ["Resistors", "Potentiometers"]),
  ("R_Thermsistor", ["Resistors", "NTC"]),
  ("C", ["Capacitors", "Ceramic"]),
  ("C_Small", ["Capacitors", "Ceramic"]),
  ("C_Polarized", ["Capacitors", "Aluminium"]),
  ("C_Polarized_Small", ["Capacitors", "Aluminium"]),
  ("CP", ["Capacitors", "Aluminium"]),
  ("C_Tantalum", ["Capacitors", "Tantalum"]),
  ("C_Polymer", ["Capacitors", "Polymer"]),
  ("C_SuperCapacitor", ["Capacitors", "Super Capacitors"]),
  ("L", ["Inductors", "Power"]),
  ("L_Iron", ["Inductors", "Power"]),
  ("L_Small", ["Inductors", "Power"]),
  ("Ferrite_Bead", ["Inductors", "Ferrite Bead"]),
  ("Ferrite_Bead_Small", ["Inductors", "Ferrite Bead"]),
  ("D", ["Diodes", "Standard"]),
  ("D_Schottky", ["Diodes", "Schottky"]),
  ("D_Zener", ["Diodes", "Zener"]),
  ("D_TVS", ["Circuit Protections", "TVS"]),
  ("LED", ["Diodes", "LED"]),
  ("LED_RGB", ["Diodes", "LED"]),
  ("BAT43W-V", ["Diodes", "Schottky"]),
  ("USBLC6-2SC6", ["Circuit Protections", "TVS"]),
  ("Q_NPN_BCE", ["Transistors", "NPN"]),
  ("Q_PNP_BCE", ["Transistors", "PNP"]),
  ("Q_NMOS_GSD", ["Transistors", "N-Channel FET"]),
  ("Q_PMOS_GSD", ["Transistors", "P-Channel FET"]),
  ("Q_NMOS_GDS", ["Transistors", "N-Channel FET"]),
  ("Q_Load_Switch_P", ["Transistors", "Load Switches"]),
  ("2N7002", ["Transistors", "N-Channel FET"]),
  ("BC847BS", ["Transistors", "NPN"]),
  ("Crystal", ["Crystals and Oscillators", "Crystals"]),
  ("Crystal_GND24", ["Crystals and Oscillators", "Crystals"]),
  ("Oscillator", ["Crystals and Oscillators", "Oscillators"]),
  ("LMR51430", ["Power Management", "Buck"]),
  ("TLV73333PDBV", ["Power Management", "LDO"]),
  ("Regulator_Linear", ["Power Management", "LDO"]),
  ("Regulator_Switching", ["Power Management", "Buck"]),
  ("STM32U575CITx", ["Integrated Circuits", "Microcontroller"]),
  ("CAT24C128", ["Integrated Circuits", "Memory"]),
  ("IC_Generic", ["Integrated Circuits"]),
  ("SA818V", ["RF", "Chipset"]),
  ("LFCN-160", ["RF", "Filter"]),
  ("Antenna", ["RF", "Antenna"]),
  ("Antenna_Shield", ["RF", "Shield"]),
  ("Conn_Coaxial", ["Connectors", "Coaxial"]),
  ("Conn_01x01", ["Connectors", "Header"]),
  ("Conn_01x02", ["Connectors", "Header"]),
  ("Conn_01x03", ["Connectors", "Header"]),
  ("Conn_01x04", ["Connectors", "Header"]),
  ("Conn_02x10_Row_Letter_First", ["Connectors", "Header"]),
  ("Conn_ARM_JTAG_SWD_10", ["Connectors", "Header"]),
  ("USB_C_Receptacle", ["Connectors", "Interface"]),
  ("USB_B_Micro", ["Connectors", "Interface"]),
  ("Conn_FPC", ["Connectors", "FPC"]),
  ("BatteryHolder", ["Connectors", "Battery"]),
  ("SW_Push", ["Mechanicals", "Switch"]),
  ("SW_SPDT", ["Mechanicals", "Switch"]),
  ("Mounting_Hole", ["Mechanicals"])]

/-- The category-path choice of `resolve_part_category` (categories.py
lines 170-191, identical to `resolve_category` in part_importer.py lines
467-490): look the KiCad symbol up in the built-in table; when mapped,
ceramic capacitor and resistor variants get the extracted package code
appended as an extra segment; when unmapped, fall back to the supplier
category path of the merged record, then to `Miscellaneous`.  The
backend walk `get_or_create_category` receives the returned path.  Note
that the source function has exactly these four parameters and consults
only the built-in table: it accepts no external category map. -/
def resolve_part_category_path (kicad_part : String) (part_data : Option PartData)
    (footprint : String) : List String :=
  match KICAD_CATEGORY_MAP.lookup kicad_part with
  | some path =>
    let pkg := if footprint = "" then "" else extract_package footprint
    if (kicad_part = "C" ∨ kicad_part = "C_Small") ∧ pkg ≠ "" then path ++ [pkg]
    else if (kicad_part = "R" ∨ kicad_part = "R_Small" ∨ kicad_part = "R_Network" ∨ kicad_part = "RN") ∧ pkg ≠ "" then
      path ++ [pkg]
    else path
  | none =>
    match part_data with
    | some d => if d.category_path = [] then ["Miscellaneous"] else d.category_path
    | none => ["Miscellaneous"]

/-! ### Part materializer (`client.py` lines 91-188) -/

/-- The two supplier links a created part can carry. -/
inductive Link where
  | lcsc
  | mouser
deriving Repr, DecidableEq

/-- One created price-break row: which supplier link it is attached to,
its minimum order quantity, unit price and currency. -/
structure PriceRow where
  link : Link
  qty : Int
  price : Rat
  currency : String
deriving Repr, DecidableEq

/-- Stable insertion of a pair into a list sorted by quantity. -/
def insertPB (p : Int × Rat) : List (Int × Rat) → List (Int × Rat)
  | [] => [p]
  | q :: rest => if p.1 ≤ q.1 then p :: q :: rest else q :: insertPB p rest

/-- `sorted(price_breaks.items())`: the dict items sorted by key.
Python compares the (key, value) tuples, but the keys of a dict are
unique, so the order is decided by the quantity alone. -/
def sortPB : List (Int × Rat) → List (Int × Rat)
  | [] => []
  | p :: rest => insertPB p (sortPB rest)

/-- Embeds `_add_price_breaks` (client.py lines 91-107, identical copy in
part_importer.py): one `SupplierPriceBreak.create` call per item of the
sorted ladder; `rowOk` tells which of these backend calls succeed, a
failing call is logged and skipped without aborting the loop.  Returns
the rows actually created, in creation order. -/
def _add_price_breaks (link : Link) (rowOk : Link → Int → Bool)
    (price_breaks : List (Int × Rat)) (currency : String) : List PriceRow :=
  (sortPB price_breaks).filterMap fun q =>
    if rowOk link q.1 then some { link := link, qty := q.1, price := q.2, currency := currency }
    else none

/-- Embeds `create_part_in_inventree` (client.py lines 110-188; the copy
in part_importer.py lines 583-663 differs only by two redundant
truthiness tests).  The Booleans are oracles for the fallible backend
calls: `partOk` for `Part.create`, `lcscSupplier`/`mouserSupplier` for
the supplier companies being available (non-`None`), `lcscSpOk` and
`mouserSpOk` for the two `SupplierPart.create` calls, `rowOk` per price
break row.  Returns `none` when the base part creation fails (the
function returns `None` and nothing later runs), otherwise the list of
price-break rows created.  Price breaks go on the LCSC supplier part
when the record carries an LCSC SKU, and on the Mouser supplier part
only when `part_data.lcsc_sku` is empty. -/
def create_part_in_inventree (partOk lcscSupplier mouserSupplier lcscSpOk mouserSpOk : Bool)
    (rowOk : Link → Int → Bool) (part_data : PartData) : Option (List PriceRow) :=
  if partOk = false then none
  else
    let lcscRows :=
      if part_data.lcsc_sku ≠ "" ∧ lcscSupplier ∧ lcscSpOk ∧ part_data.price_breaks ≠ [] then
        _add_price_breaks Link.lcsc rowOk part_data.price_breaks part_data.currency
      else []
    let mouserRows :=
      if part_data.mouser_sku ≠ "" ∧ mouserSupplier ∧ mouserSpOk ∧
          part_data.price_breaks ≠ [] ∧ part_data.lcsc_sku = "" then
        _add_price_breaks Link.mouser rowOk part_data.price_breaks part_data.currency
      else []
    some (lcscRows ++ mouserRows)

/-! ### Per-line resolution (`part_manager.py` lines 111-161,
`part_importer.py` lines 759-813) -/

/-- One supplier-part record as returned by `SupplierPart.list`: its SKU
and the primary key of the owning part. -/
structure SupplierPartRec where
  SKU : String
  part : Nat
deriving Repr, DecidableEq

/-- Embeds the dataclass `BomEntry` of models.py lines 31-43
(`BuildPart` in bom-export.py); `inventree_part` holds the primary keys
of the resolved backend parts. -/
structure BomEntry where
  reference : String := ""
  qty : Nat := 0
  kicad_part : String := ""
  kicad_value : String := ""
  kicad_footprint : String := ""
  lcsc : List String := []
  mouser : List String := []
  inventree_part : List Nat := []
deriving Repr, DecidableEq

/-- Oracles for the external collaborators of one pipeline run: the
backend SKU query `SupplierPart.list` (`Except.error ()` models a raised
exception, caught by the caller), the three catalog fetch entry points
(`none` models not-found or a caught network failure), the exact-name
part lookup, and the outcome of a part creation. -/
structure SyncEnv where
  spQuery : String → Except Unit (List SupplierPartRec)
  fetchLcscSku : String → Option PartData
  fetchLcscMpn : String → Option PartData
  fetchMouser : String → Option PartData
  partByName : String → Option Nat
  createPart : String → PartData → Option Nat

/-- Externally visible calls of one line resolution: catalog fetches and
the base part creation.  Backend list/lookup calls are not fetches and
are not traced. -/
inductive Ev where
  | fetchLcscSku (sku : String)
  | fetchLcscMpn (mpn : String)
  | fetchMouser (sku : String)
  | createPart (name : String)
deriving Repr, DecidableEq

/-- Embeds `_strip_mouser_prefix` (part_manager.py lines 27-34, identical
copy in part_importer.py): strip a leading numeric distributor code
followed by a dash, returning the rest; the original string when the
pattern `^\d+-(.+)$` does not match. -/
def strip_mouser_distributor_code (mouser_sku : String) : String :=
  let ds := mouser_sku.data.takeWhile isPyDigit
  let rest := mouser_sku.data.drop ds.length
  match rest with
  | '-' :: r => if ds = [] ∨ r = [] then mouser_sku else String.mk r
  | _ => mouser_sku

/-- The loop of `find_existing_part`: try the SKUs in order, return the
owning part of the first supplier-part hit; a failed query (`error`) or
an empty result falls through to the next SKU. -/
def findFirstSupplierPart (q : String → Except Unit (List SupplierPartRec)) :
    List String → Option Nat
  | [] => none
  | s :: rest =>
    match q s with
    | Except.ok (r :: _) => some r.part
    | _ => findFirstSupplierPart q rest

/-- Embeds `find_existing_part` (client.py lines 191-202, identical to
`_find_existing_part` in part_importer.py): query
`SupplierPart.list(api, SKU=sku)` for each non-empty candidate SKU, LCSC
first. -/
def find_existing_part (q : String → Except Unit (List SupplierPartRec))
    (lcsc_sku mouser_sku : String) : Option Nat :=
  findFirstSupplierPart q ([lcsc_sku, mouser_sku].filter fun s => s ≠ "")

/-- Embeds `find_part_by_name` (client.py lines 205-216): empty names are
never looked up; the oracle returns the exact-name match, with lookup
failures already degraded to `none`. -/
def find_part_by_name (lookup : String → Option Nat) (name : String) : Option Nat :=
  if name = "" then none else lookup name

/-- Embeds `_fetch_and_merge` (part_manager.py lines 37-87; identical to
`_fetch_part_data` in part_importer.py lines 679-731) together with the
trace of catalog fetches it performs: LCSC by SKU when an LCSC SKU is
present, LCSC by MPN derived from the Mouser SKU when the first step
yielded nothing, Mouser by SKU when a Mouser SKU is present; then the
merge of the section modelled by `mergeFetched`. -/
def _fetch_and_merge (env : SyncEnv) (lcsc_sku mouser_sku : String) :
    Option PartData × List Ev :=
  let s1 : Option PartData × List Ev :=
    if lcsc_sku = "" then (none, [])
    else (env.fetchLcscSku lcsc_sku, [Ev.fetchLcscSku lcsc_sku])
  let s2 : Option PartData × List Ev :=
    if s1.1 = none ∧ mouser_sku ≠ "" then
      let mpn := strip_mouser_distributor_code mouser_sku
      (env.fetchLcscMpn mpn, s1.2 ++ [Ev.fetchLcscMpn mpn])
    else s1
  let md : Option PartData × List Ev :=
    if mouser_sku = "" then (none, s2.2)
    else (env.fetchMouser mouser_sku, s2.2 ++ [Ev.fetchMouser mouser_sku])
  (mergeFetched s2.1 md.1 lcsc_sku mouser_sku, md.2)

/-- Outcome of one iteration of the `ensure_parts_exist` loop for one
BOM entry. -/
inductive Outcome where
  | noSkus
  | alreadyResolved
  | resolved (pk : Nat)
  | noData
  | createFailed
deriving Repr, DecidableEq

/-- Embeds the body of the `for` loop of `ensure_parts_exist`
(part_importer.py lines 759-813; part_manager.py lines 111-161 is
identical except that its category-resolution call would raise, see the
startup model below): skip entries without SKUs or already resolved,
short-circuit on an existing supplier-part SKU match, fetch and merge,
reuse an existing part with the derived name, else create.  `resolved pk`
means `pk` is appended to `entry.inventree_part`. -/
def processEntry (env : SyncEnv) (e : BomEntry) : Outcome × List Ev :=
  if e.lcsc = [] ∧ e.mouser = [] then (Outcome.noSkus, [])
  else if e.inventree_part ≠ [] then (Outcome.alreadyResolved, [])
  else
    let ls := e.lcsc.headD ""
    let ms := e.mouser.headD ""
    match find_existing_part env.spQuery ls ms with
    | some pk => (Outcome.resolved pk, [])
    | none =>
      match _fetch_and_merge env ls ms with
      | (none, evs) => (Outcome.noData, evs)
      | (some pd, evs) =>
        let name := generate_part_name e.kicad_part e.kicad_value e.kicad_footprint
        match find_part_by_name env.partByName name with
        | some pk => (Outcome.resolved pk, evs)
        | none =>
          match env.createPart name pd with
          | some pk => (Outcome.resolved pk, evs ++ [Ev.createPart name])
          | none => (Outcome.createFailed, evs ++ [Ev.createPart name])

/-! ### Python call binding and startup (`part_manager.py` lines 90-161,
`fetchers.py` lines 178-184) -/

deriving instance DecidableEq for Except

/-- One parameter of a Python function signature. -/
structure PyParam where
  name : String
  hasDefault : Bool
deriving Repr, DecidableEq

/-- CPython argument binding for a call with `npos` positional arguments
and the named keyword arguments: a `TypeError` results when there are
more positional arguments than parameters, when a keyword does not name
a parameter or names one already filled positionally, or when a
parameter without default stays unfilled. -/
def bindCall (params : List PyParam) (npos : Nat) (kwargs : List String) :
    Except String Unit :=
  if params.length < npos then Except.error "TypeError: too many positional arguments"
  else
    let names := params.map PyParam.name
    let posFilled := names.take npos
    if kwargs.any fun k => (names.contains k) = false then
      Except.error "TypeError: unexpected keyword argument"
    else if kwargs.any fun k => posFilled.contains k then
      Except.error "TypeError: multiple values for argument"
    else
      let filled := posFilled ++ kwargs
      if params.any fun p => p.hasDefault = false ∧ (filled.contains p.name) = false then
        Except.error "TypeError: missing required positional argument"
      else Except.ok ()

/-- Signature of `get_or_create_supplier(api, pk, name)` (client.py line
23): three parameters, none with a default. -/
def get_or_create_supplier_params : List PyParam :=
  [{ name := "api", hasDefault := false }, { name := "pk", hasDefault := false },
   { name := "name", hasDefault := false }]

/-- Signature of `resolve_part_category(api, kicad_part, part_data,
footprint)` (categories.py lines 170-175): four parameters, none with a
default. -/
def resolve_part_category_params : List PyParam :=
  [{ name := "api", hasDefault := false }, { name := "kicad_part", hasDefault := false },
   { name := "part_data", hasDefault := false }, { name := "footprint", hasDefault := false }]

/-- The error message of `MouserFetcher.__init__` (fetchers.py lines
178-184). -/
def mouserKeyMsg : String :=
  "MOUSER_API_KEY environment variable is not set. Export it before running this script."

/-- Embeds `MouserFetcher.__init__`: read `MOUSER_API_KEY` from the
environment and raise `EnvironmentError` when it is unset or empty
(Python truthiness of `os.environ.get`). -/
def mouserFetcherInit (key : Option String) : Except String Unit :=
  match key with
  | none => Except.error mouserKeyMsg
  | some k => if k = "" then Except.error mouserKeyMsg else Except.ok ()

/-- A raised exception aborting `ensure_parts_exist` before its loop. -/
inductive StartErr where
  | envError (msg : String)
  | typeError (msg : String)
deriving Repr, DecidableEq

/-- Embeds `ensure_parts_exist` of the packaged copy (part_manager.py
lines 90-161).  `key` is the `MOUSER_API_KEY` environment value.  The
`LCSCFetcher` constructor cannot raise (its network call is caught); the
`MouserFetcher` constructor raises when the key is missing; then the
call `get_or_create_supplier(api, name="LCSC")` on line 108 binds one
positional and one keyword argument against the three-parameter
signature, which raises `TypeError` before the loop.  An `Except.error`
result models the exception propagating out with no BOM line processed.
The `ok` branch is unreachable; were it reached, the create path of each
line would in addition raise `TypeError` at the five-argument
`resolve_part_category` call on line 156. -/
def ensure_parts_exist (key : Option String) (env : SyncEnv) (entries : List BomEntry) :
    Except StartErr (List (Outcome × List Ev)) :=
  match mouserFetcherInit key with
  | Except.error m => Except.error (StartErr.envError m)
  | Except.ok _ =>
    match bindCall get_or_create_supplier_params 1 ["name"] with
    | Except.error m => Except.error (StartErr.typeError m)
    | Except.ok _ => Except.ok (entries.map fun e => processEntry env e)

/-- Embeds `ensure_parts_exist` of the script copy (part_importer.py
lines 738-813), whose supplier and category calls bind correctly: after
the fetcher constructors the loop processes every entry in order. -/
def ensure_parts_exist_importer (key : Option String) (env : SyncEnv)
    (entries : List BomEntry) : Except StartErr (List (Outcome × List Ev)) :=
  match mouserFetcherInit key with
  | Except.error m => Except.error (StartErr.envError m)
  | Except.ok _ => Except.ok (entries.map fun e => processEntry env e)

/-! ### Concrete records used by examples, counterexamples and
witnesses -/

/-- The primary record of the merge-priority example of the spec:
image empty, price ladder `10 : 1.0`, description `A`. -/
def examplePrimary : PartData :=
  { description := "A", price_breaks := [(10, 1)] }

/-- The secondary record of the merge-priority example of the spec:
image `u`, empty price ladder, description `B`. -/
def exampleSecondary : PartData :=
  { description := "B", image_url := "u" }

/-- An environment in which every lookup misses and every fetch fails. -/
def emptyEnv : SyncEnv :=
  { spQuery := fun _ => Except.ok [], fetchLcscSku := fun _ => none,
    fetchLcscMpn := fun _ => none, fetchMouser := fun _ => none,
    partByName := fun _ => none, createPart := fun _ _ => none }

/-- An environment whose backend holds a supplier part with SKU `C25744`
owned by part 42. -/
def skuHitEnv : SyncEnv :=
  { emptyEnv with
    spQuery := fun s =>
      if s = "C25744" then Except.ok [{ SKU := "C25744", part := 42 }] else Except.ok [] }

/-- A BOM entry carrying the LCSC SKU `C25744` and nothing resolved. -/
def skuHitEntry : BomEntry :=
  { reference := "R1", qty := 1, kicad_part := "R", kicad_value := "10k",
    kicad_footprint := "R_0805_2012Metric", lcsc := ["C25744"] }

/-- A merged record with both SKUs and an unsorted two-step ladder. -/
def c2WitnessData : PartData :=
  { lcsc_sku := "C123", mouser_sku := "637-X", price_breaks := [(100, 2), (10, 1)] }

/-- The rows the materializer creates for `c2WitnessData` when every
backend call succeeds: both on the LCSC link, ascending quantities. -/
def c2WitnessRows : List PriceRow :=
  [{ link := Link.lcsc, qty := 10, price := 1, currency := "EUR" },
   { link := Link.lcsc, qty := 100, price := 2, currency := "EUR" }]

/-! ## Helper lemmas -/

/-- Field-level description of the both-present merge: every field comes
from the primary record except the four override fields, which follow
the gap-filling rule, and the two SKU fields, which take the input SKUs
of the call. -/
theorem merge_both_fields (l m : PartData) (ls ms : String) :
    mergeFetched (some l) (some m) ls ms =
      some { l with
        image_url := if l.image_url = "" then m.image_url else l.image_url,
        datasheet_url := if l.datasheet_url = "" then m.datasheet_url else l.datasheet_url,
        price_breaks := if l.price_breaks = [] then m.price_breaks else l.price_breaks,
        currency := if l.price_breaks = [] then m.currency else l.currency,
        description := if l.description = "" then m.description else l.description,
        lcsc_sku := ls, mouser_sku := ms } := by
  cases l
  simp only [mergeFetched, mergeBoth, stampSkus]
  split_ifs <;> simp_all

/-- The trace of `_fetch_and_merge` holds catalog fetch events only,
never a part creation. -/
theorem fetch_trace_no_create (env : SyncEnv) (ls ms n : String) :
    Ev.createPart n ∉ (_fetch_and_merge env ls ms).2 := by
  unfold _fetch_and_merge
  by_cases hls : ls = "" <;> by_cases hms : ms = "" <;>
    simp only [hls, hms, if_pos, if_neg, if_true, if_false, reduceIte, ne_eq,
      not_true_eq_false, not_false_eq_true, and_true, and_false] <;>
    first
    | (split_ifs <;> simp)
    | simp

/-! ## C1: merge priority between the two supplier records -/

/-- Claim C1, counterexample: in a both-present merge the result does
not keep the value of the primary record for the `mouser_sku` field
(a field outside the four override fields) — the SKU fields are stamped
with the input SKUs of the call instead. -/
theorem c1_merge_keeps_primary_cex :
    ¬ ((mergeFetched (some examplePrimary) (some exampleSecondary) "C25744" "637-X").map
        PartData.mouser_sku = some examplePrimary.mouser_sku) := by
  decide

/-- Claim C1 (amended): in a both-present merge the result keeps the
value of the primary record for every field other than the two SKU
fields, which are stamped with the input SKUs of the call; for each of
image URL, datasheet URL, price breaks together with currency, and
description, the value of the secondary record is substituted exactly
when the value of the primary record is empty.  In particular the merge
of the primary record with empty image, price ladder `10 : 1.0` and
description `A` with the secondary record with image `u`, empty ladder
and description `B` keeps the ladder and the description and takes the
image `u`. -/
theorem c1_merge_priority_amended :
    (∀ (l m : PartData) (ls ms : String),
      mergeFetched (some l) (some m) ls ms =
        some { l with
          image_url := if l.image_url = "" then m.image_url else l.image_url,
          datasheet_url := if l.datasheet_url = "" then m.datasheet_url else l.datasheet_url,
          price_breaks := if l.price_breaks = [] then m.price_breaks else l.price_breaks,
          currency := if l.price_breaks = [] then m.currency else l.currency,
          description := if l.description = "" then m.description else l.description,
          lcsc_sku := ls, mouser_sku := ms }) ∧
    (∀ ls ms : String,
      mergeFetched (some examplePrimary) (some exampleSecondary) ls ms =
        some { examplePrimary with image_url := "u", lcsc_sku := ls, mouser_sku := ms }) := by
  refine ⟨merge_both_fields, fun ls ms => ?_⟩
  rw [merge_both_fields]
  rfl

/-! ## C7: merge with one or both sources absent -/

/-- Claim C7: with only one fetched record the merge result equals that
record verbatim except for the two SKU fields, which are stamped with
both input SKUs; with no fetched record the merge yields nothing, and
the caller then never performs a part-creation call for that line. -/
theorem c7_single_source_merge :
    (∀ (m : PartData) (ls ms : String),
      mergeFetched none (some m) ls ms = some { m with lcsc_sku := ls, mouser_sku := ms }) ∧
    (∀ (l : PartData) (ls ms : String),
      mergeFetched (some l) none ls ms = some { l with lcsc_sku := ls, mouser_sku := ms }) ∧
    (∀ ls ms : String, mergeFetched none none ls ms = none) ∧
    (∀ (env : SyncEnv) (e : BomEntry),
      (_fetch_and_merge env (e.lcsc.headD "") (e.mouser.headD "")).1 = none →
        ∀ n, Ev.createPart n ∉ (processEntry env e).2) := by
  refine ⟨fun m ls ms => rfl, fun l ls ms => rfl, fun ls ms => rfl, ?_⟩
  intro env e h n
  by_cases h0 : e.lcsc = [] ∧ e.mouser = []
  · simp [processEntry, h0]
  · by_cases h1 : e.inventree_part = []
    · have h1' : ¬ e.inventree_part ≠ [] := by simp [h1]
      rcases hfe : find_existing_part env.spQuery (e.lcsc.headD "") (e.mouser.headD "") with _ | pk
      · rcases hfm : _fetch_and_merge env (e.lcsc.headD "") (e.mouser.headD "") with ⟨pd, evs⟩
        have hpd : pd = none := by rw [hfm] at h; exact h
        subst hpd
        simp only [processEntry]
        rw [if_neg h0, if_neg h1', hfe, hfm]
        have hc := fetch_trace_no_create env (e.lcsc.headD "") (e.mouser.headD "") n
        rw [hfm] at hc
        simpa using hc
      · simp only [processEntry]
        rw [if_neg h0, if_neg h1', hfe]
        simp
    · simp [processEntry, h0, h1]

/-- Witness for C7: with an environment in which both fetches miss, the
line for the entry with SKU `C25744` produces no create call. -/
theorem c7_witness :
    Ev.createPart "R 10k 0805" ∉ (processEntry emptyEnv skuHitEntry).2 :=
  c7_single_source_merge.2.2.2 emptyEnv skuHitEntry (by decide) "R 10k 0805"

/-! ## C8: immutability of fetched records -/

/-- Claim C8, counterexample: after a both-present merge the object the
primary fetched record refers to no longer holds its original field
values — the merge mutates it in place (the result is an alias of it). -/
theorem c8_record_immutable_cex :
    (mergeStates (some examplePrimary) (some exampleSecondary) "C25744" "637-X").2.1 ≠
      some examplePrimary := by
  decide

/-- Claim C8 (amended): the merge never modifies the secondary fetched
record, and it produces its result by updating the primary (or the sole)
fetched record in place and returning that same object: the value of
`result` always equals the final state of the record it aliases, and the
aliased states agree with `mergeFetched`. -/
theorem c8_merge_mutation_amended :
    (∀ (l m : PartData) (ls ms : String),
      (mergeStates (some l) (some m) ls ms).2.2 = some m) ∧
    (∀ (l m : PartData) (ls ms : String),
      (mergeStates (some l) (some m) ls ms).1 = (mergeStates (some l) (some m) ls ms).2.1) ∧
    (∀ (l : PartData) (ls ms : String),
      (mergeStates (some l) none ls ms).1 = (mergeStates (some l) none ls ms).2.1) ∧
    (∀ (m : PartData) (ls ms : String),
      (mergeStates none (some m) ls ms).1 = (mergeStates none (some m) ls ms).2.2) ∧
    (∀ (a b : Option PartData) (ls ms : String),
      (mergeStates a b ls ms).1 = mergeFetched a b ls ms) := by
  refine ⟨fun l m ls ms => rfl, fun l m ls ms => rfl, fun l ls ms => rfl,
    fun m ls ms => rfl, fun a b ls ms => ?_⟩
  cases a <;> cases b <;> rfl

/-! ## C3: SKU-match short-circuit -/

/-- Claim C3: for an unresolved BOM line one of whose candidate SKUs has
an exactly matching supplier-part record in the backend — the LCSC SKU
checked first, the Mouser SKU consulted only when the LCSC lookup yields
no hit (empty SKU, empty result, or a raised and caught lookup error) —
the line resolves to the owning part of the first matching record and
the trace is empty: no catalog fetch and no part-creation call occurs. -/
theorem c3_sku_short_circuit (env : SyncEnv) (e : BomEntry) (r : SupplierPartRec)
    (t : List SupplierPartRec) (hun : e.inventree_part = [])
    (hm : (e.lcsc.headD "" ≠ "" ∧ env.spQuery (e.lcsc.headD "") = Except.ok (r :: t)) ∨
      ((e.lcsc.headD "" = "" ∨ env.spQuery (e.lcsc.headD "") = Except.ok [] ∨
          env.spQuery (e.lcsc.headD "") = Except.error ()) ∧
        e.mouser.headD "" ≠ "" ∧ env.spQuery (e.mouser.headD "") = Except.ok (r :: t))) :
    processEntry env e = (Outcome.resolved r.part, []) := by
  have h0 : ¬ (e.lcsc = [] ∧ e.mouser = []) := by
    rintro ⟨hl, hm2⟩
    rcases hm with ⟨hs, _⟩ | ⟨_, hs, _⟩ <;> simp [hl, hm2] at hs
  have h1' : ¬ e.inventree_part ≠ [] := by simp [hun]
  have key : ∀ ls ms : String,
      (ls ≠ "" ∧ env.spQuery ls = Except.ok (r :: t)) ∨
        ((ls = "" ∨ env.spQuery ls = Except.ok [] ∨ env.spQuery ls = Except.error ()) ∧
          ms ≠ "" ∧ env.spQuery ms = Except.ok (r :: t)) →
      find_existing_part env.spQuery ls ms = some r.part := by
    intro ls ms hcase
    unfold find_existing_part
    rcases hcase with ⟨hls, hq⟩ | ⟨hfail, hms, hq⟩
    · have hf : [ls, ms].filter (fun s => s ≠ "") = ls :: [ms].filter fun s => s ≠ "" := by
        simp [List.filter_cons, hls]
      rw [hf]
      simp [findFirstSupplierPart, hq]
    · by_cases hls : ls = ""
      · have hf : [ls, ms].filter (fun s => s ≠ "") = [ms] := by
          simp [List.filter_cons, hls, hms]
        rw [hf]
        simp [findFirstSupplierPart, hq]
      · have hf : [ls, ms].filter (fun s => s ≠ "") = [ls, ms] := by
          simp [List.filter_cons, hls, hms]
        rw [hf]
        have step : findFirstSupplierPart env.spQuery [ls, ms] =
            findFirstSupplierPart env.spQuery [ms] := by
          rcases hfail with hc | hc | hc
          · exact absurd hc hls
          · simp [findFirstSupplierPart, hc]
          · simp [findFirstSupplierPart, hc]
        rw [step]
        simp [findFirstSupplierPart, hq]
  simp only [processEntry]
  rw [if_neg h0, if_neg h1', key (e.lcsc.headD "") (e.mouser.headD "") hm]

/-- Witness for C3: the entry with SKU `C25744` resolves to part 42 with
an empty trace in the environment whose backend holds that SKU. -/
theorem c3_witness :
    processEntry skuHitEnv skuHitEntry = (Outcome.resolved 42, []) :=
  c3_sku_short_circuit skuHitEnv skuHitEntry { SKU := "C25744", part := 42 } [] rfl
    (Or.inl ⟨by decide, rfl⟩)

/-! ## C2: price-break exclusivity and ordering -/

/-- Membership in a stable insertion. -/
theorem mem_insertPB (a p : Int × Rat) (l : List (Int × Rat)) :
    a ∈ insertPB p l ↔ a = p ∨ a ∈ l := by
  induction l with
  | nil => simp [insertPB]
  | cons q rest ih =>
    rw [insertPB]
    by_cases h : p.1 ≤ q.1
    · rw [if_pos h]
      simp [or_comm, or_assoc, or_left_comm]
    · rw [if_neg h]
      simp only [List.mem_cons, ih]
      tauto

/-- Stable insertion preserves sortedness by quantity. -/
theorem insertPB_pairwise (p : Int × Rat) (l : List (Int × Rat))
    (h : l.Pairwise fun a b => a.1 ≤ b.1) :
    (insertPB p l).Pairwise fun a b => a.1 ≤ b.1 := by
  induction l with
  | nil => simp [insertPB]
  | cons q rest ih =>
    rcases List.pairwise_cons.mp h with ⟨hq, hrest⟩
    rw [insertPB]
    by_cases hpq : p.1 ≤ q.1
    · rw [if_pos hpq]
      rw [List.pairwise_cons]
      refine ⟨?_, h⟩
      intro b hb
      rcases List.mem_cons.mp hb with rfl | hb
      · exact hpq
      · exact le_trans hpq (hq b hb)
    · rw [if_neg hpq]
      rw [List.pairwise_cons]
      refine ⟨?_, ih hrest⟩
      intro b hb
      rcases (mem_insertPB b p rest).mp hb with rfl | hb
      · exact le_of_not_le hpq
      · exact hq b hb

/-- The sorted ladder is sorted by quantity. -/
theorem sortPB_pairwise (l : List (Int × Rat)) :
    (sortPB l).Pairwise fun a b => a.1 ≤ b.1 := by
  induction l with
  | nil => simp [sortPB]
  | cons p rest ih => exact insertPB_pairwise p (sortPB rest) ih

/-- The quantities of the created rows form a sublist of the quantities
of the sorted ladder. -/
theorem add_price_breaks_qty_sublist (link : Link) (rowOk : Link → Int → Bool)
    (pbs : List (Int × Rat)) (c : String) :
    ((_add_price_breaks link rowOk pbs c).map PriceRow.qty).Sublist
      ((sortPB pbs).map Prod.fst) := by
  unfold _add_price_breaks
  generalize sortPB pbs = l
  induction l with
  | nil => simp
  | cons q rest ih =>
    rw [List.filterMap_cons, List.map_cons]
    by_cases h : rowOk link q.1
    · rw [if_pos h]
      simpa using List.Sublist.cons₂ q.1 ih
    · rw [if_neg h]
      exact ih.cons q.1

/-- Every created row carries the link it was created for. -/
theorem add_price_breaks_link (link : Link) (rowOk : Link → Int → Bool)
    (pbs : List (Int × Rat)) (c : String) :
    ∀ r ∈ _add_price_breaks link rowOk pbs c, r.link = link := by
  intro r hr
  unfold _add_price_breaks at hr
  rcases List.mem_filterMap.mp hr with ⟨q, _, hg⟩
  by_cases h : rowOk link q.1
  · rw [if_pos h] at hg
    cases hg
    rfl
  · rw [if_neg h] at hg
    cases hg

/-- The created rows are sorted by quantity. -/
theorem add_price_breaks_sorted (link : Link) (rowOk : Link → Int → Bool)
    (pbs : List (Int × Rat)) (c : String) :
    ((_add_price_breaks link rowOk pbs c).map PriceRow.qty).Pairwise fun a b => a ≤ b := by
  have hmap : ((sortPB pbs).map Prod.fst).Pairwise fun a b => a ≤ b :=
    (List.pairwise_map).mpr (sortPB_pairwise pbs)
  exact hmap.sublist (add_price_breaks_qty_sublist link rowOk pbs c)

/-- Claim C2: whenever `create_part_in_inventree` returns a part, the
price-break rows it created all sit on a single supplier link — rows on
the LCSC link imply the record carries an LCSC SKU, rows on the Mouser
link imply it does not — and the rows are in ascending quantity order. -/
theorem c2_price_break_exclusivity (partOk lcscSupplier mouserSupplier lcscSpOk mouserSpOk : Bool)
    (rowOk : Link → Int → Bool) (pd : PartData) (rows : List PriceRow)
    (h : create_part_in_inventree partOk lcscSupplier mouserSupplier lcscSpOk mouserSpOk
        rowOk pd = some rows) :
    ((∀ r ∈ rows, r.link = Link.lcsc) ∨ (∀ r ∈ rows, r.link = Link.mouser)) ∧
    (∀ r ∈ rows, r.link = Link.lcsc → pd.lcsc_sku ≠ "") ∧
    (∀ r ∈ rows, r.link = Link.mouser → pd.lcsc_sku = "") ∧
    ((rows.map PriceRow.qty).Pairwise fun a b => a ≤ b) := by
  unfold create_part_in_inventree at h
  by_cases hp : partOk = false
  · rw [if_pos hp] at h
    cases h
  · rw [if_neg hp] at h
    by_cases hsku : pd.lcsc_sku = ""
    · have hl : ¬ (pd.lcsc_sku ≠ "" ∧ lcscSupplier = true ∧ lcscSpOk = true ∧
          pd.price_breaks ≠ []) := by simp [hsku]
      rw [if_neg hl] at h
      by_cases hmc : pd.mouser_sku ≠ "" ∧ mouserSupplier = true ∧ mouserSpOk = true ∧
          pd.price_breaks ≠ [] ∧ pd.lcsc_sku = ""
      · rw [if_pos hmc] at h
        simp only [List.nil_append] at h
        cases h
        refine ⟨Or.inr (add_price_breaks_link _ _ _ _), ?_, ?_, ?_⟩
        · intro r hr hlk
          rw [add_price_breaks_link _ _ _ _ r hr] at hlk
          cases hlk
        · intro r _ _
          exact hsku
        · exact add_price_breaks_sorted _ _ _ _
      · rw [if_neg hmc] at h
        simp only [List.nil_append] at h
        cases h
        refine ⟨Or.inl ?_, ?_, ?_, ?_⟩ <;> simp
    · have hm2 : ¬ (pd.mouser_sku ≠ "" ∧ mouserSupplier = true ∧ mouserSpOk = true ∧
          pd.price_breaks ≠ [] ∧ pd.lcsc_sku = "") := by simp [hsku]
      rw [if_neg hm2] at h
      simp only [List.append_nil] at h
      by_cases hlc : pd.lcsc_sku ≠ "" ∧ lcscSupplier = true ∧ lcscSpOk = true ∧
          pd.price_breaks ≠ []
      · rw [if_pos hlc] at h
        cases h
        refine ⟨Or.inl (add_price_breaks_link _ _ _ _), ?_, ?_, ?_⟩
        · intro r _ _
          exact hsku
        · intro r hr hlk
          rw [add_price_breaks_link _ _ _ _ r hr] at hlk
          cases hlk
        · exact add_price_breaks_sorted _ _ _ _
      · rw [if_neg hlc] at h
        cases h
        refine ⟨Or.inl ?_, ?_, ?_, ?_⟩ <;> simp

/-- Witness for C2: a record with both SKUs and the unsorted ladder
`100 : 2.0, 10 : 1.0` yields rows on the LCSC link only, in ascending
quantity order. -/
theorem c2_witness :
    ((∀ r ∈ c2WitnessRows, r.link = Link.lcsc) ∨ (∀ r ∈ c2WitnessRows, r.link = Link.mouser)) ∧
    (∀ r ∈ c2WitnessRows, r.link = Link.lcsc → c2WitnessData.lcsc_sku ≠ "") ∧
    (∀ r ∈ c2WitnessRows, r.link = Link.mouser → c2WitnessData.lcsc_sku = "") ∧
    ((c2WitnessRows.map PriceRow.qty).Pairwise fun a b => a ≤ b) :=
  c2_price_break_exclusivity true true true true true (fun _ _ => true) c2WitnessData
    c2WitnessRows (by decide)

/-! ## C4: price parsing and malformed-row tolerance -/

/-- A row that is not well formed leaves the loop state unchanged: the
raised `KeyError`/`ValueError` is caught inside the loop body before the
dict insert and the currency update. -/
theorem mouserRowStep_not_wf (st : List (Int × Rat) × String) (r : RawPriceBreak)
    (h : wellFormedRow r = false) : mouserRowStep st r = st := by
  rcases hq : r.quantity with _ | qs
  · simp [mouserRowStep, hq]
  · rcases hi : pyInt? qs with _ | q
    · simp [mouserRowStep, hq, hi]
    · rcases hp : _parse_price (r.price.getD "0") with _ | p
      · simp [mouserRowStep, hq, hi, hp]
      · exfalso
        unfold wellFormedRow at h
        rw [hq] at h
        simp [hi, hp] at h

/-- The fold over the raw rows only depends on the well-formed rows. -/
theorem mouserPB_fold_filter (rows : List RawPriceBreak) :
    ∀ st, rows.foldl mouserRowStep st =
      (rows.filter fun r => wellFormedRow r).foldl mouserRowStep st := by
  induction rows with
  | nil => intro st; rfl
  | cons r rest ih =>
    intro st
    by_cases h : wellFormedRow r
    · rw [List.foldl_cons, List.filter_cons, if_pos (by simpa using h), List.foldl_cons]
      exact ih (mouserRowStep st r)
    · have h' : wellFormedRow r = false := by simpa using h
      rw [List.foldl_cons, mouserRowStep_not_wf st r h', List.filter_cons,
        if_neg (by simp [h'])]
      exact ih st

/-- Claim C4: the price parser maps the three example strings of the
spec to `7.07`, `1234.56` and `0.1234`, a malformed price string is a
`ValueError` (`none`), and the price-break loop of the Mouser fetch is
unchanged by deleting the malformed rows — every malformed row is
skipped, none is recorded, and the loop (the model of which is a total
function) propagates no exception. -/
theorem c4_price_parsing :
    _parse_price "€ 7,07" = some ((707 : Rat) / 100) ∧
    _parse_price "$ 1,234.56" = some ((123456 : Rat) / 100) ∧
    _parse_price "0.1234" = some ((1234 : Rat) / 10000) ∧
    _parse_price "1.2.3" = none ∧
    (∀ rows : List RawPriceBreak,
      mouserPriceBreaks rows = mouserPriceBreaks (rows.filter fun r => wellFormedRow r)) := by
  refine ⟨?_, ?_, ?_, by decide, fun rows => mouserPB_fold_filter rows ([], "EUR")⟩
  · have e1 : _parse_price "€ 7,07" =
        some ((digitsToNat ['7'] : Rat) + (digitsToNat ['0', '7'] : Rat) / ((10 : Rat) ^ 2)) :=
      rfl
    rw [e1]
    norm_num [show digitsToNat ['7'] = 7 from rfl, show digitsToNat ['0', '7'] = 7 from rfl]
  · have e2 : _parse_price "$ 1,234.56" =
        some ((digitsToNat ['1', '2', '3', '4'] : Rat) +
          (digitsToNat ['5', '6'] : Rat) / ((10 : Rat) ^ 2)) :=
      rfl
    rw [e2]
    norm_num [show digitsToNat ['1', '2', '3', '4'] = 1234 from rfl,
      show digitsToNat ['5', '6'] = 56 from rfl]
  · have e3 : _parse_price "0.1234" =
        some ((digitsToNat ['0'] : Rat) +
          (digitsToNat ['1', '2', '3', '4'] : Rat) / ((10 : Rat) ^ 4)) :=
      rfl
    rw [e3]
    norm_num [show digitsToNat ['0'] = 0 from rfl,
      show digitsToNat ['1', '2', '3', '4'] = 1234 from rfl]

/-! ## C5: name derivation -/

/-- The non-greedy group scan consumes a run of word characters free of
underscores and stops at the following underscore. -/
theorem grabGroupGo_word_run (rest ps : List Char) :
    ∀ acc : List Char, (∀ c ∈ ps, isWordChar c ∧ c ≠ '_') →
      grabGroupGo acc (ps ++ '_' :: rest) = some (acc.reverse ++ ps) := by
  induction ps with
  | nil =>
    intro acc _
    simp [grabGroupGo]
  | cons q qs ih =>
    intro acc h
    have hq := h q (List.mem_cons_self q qs)
    rw [List.cons_append, grabGroupGo]
    rw [if_neg hq.2, if_pos hq.1]
    rw [ih (q :: acc) fun c hc => h c (List.mem_cons_of_mem q hc)]
    simp

/-- The group of the regex on a remainder starting with a nonempty
underscore-free word-character segment is exactly that segment. -/
theorem grabGroup_word_run (rest ps : List Char) (hne : ps ≠ [])
    (h : ∀ c ∈ ps, isWordChar c ∧ c ≠ '_') :
    grabGroup (ps ++ '_' :: rest) = some ps := by
  cases ps with
  | nil => exact absurd rfl hne
  | cons p pt =>
    have hp := h p (List.mem_cons_self p pt)
    rw [List.cons_append, grabGroup]
    rw [if_pos hp.1]
    rw [grabGroupGo_word_run rest pt [p] fun c hc => h c (List.mem_cons_of_mem p hc)]
    simp

/-- The regex fails on every footprint not starting with a family letter
followed by an underscore. -/
theorem extract_package_core_none (l : List Char)
    (h : ∀ c r, l = c :: '_' :: r → ¬(c = 'C' ∨ c = 'R' ∨ c = 'L')) :
    extract_package_core l = none := by
  rcases l with _ | ⟨c, _ | ⟨d, r⟩⟩
  · rfl
  · rfl
  · by_cases hd : d = '_'
    · subst hd
      rw [extract_package_core, if_neg]
      rintro ⟨-, hc⟩
      exact h c r rfl hc
    · rw [extract_package_core, if_neg]
      rintro ⟨h1, -⟩
      exact hd h1

/-- Claim C5: the derived name follows the family template table on the
normalized value — `R`/`C` with value and package, `C_Polarized` as `CP`,
`L` and `L_Iron` as `L`, `Crystal` as `XTAL` — and every other family
tag maps to the normalized value alone; a footprint of the shape
`<familyLetter>_<package>_<rest>` yields `<package>`, any footprint not
of that shape yields its first underscore-delimited segment; and the two
concrete examples of the spec hold. -/
theorem c5_name_derivation :
    (∀ v f, generate_part_name "R" v f = "R " ++ normalizeValue v ++ " " ++ extract_package f) ∧
    (∀ v f, generate_part_name "C" v f = "C " ++ normalizeValue v ++ " " ++ extract_package f) ∧
    (∀ v f, generate_part_name "C_Polarized" v f = "CP " ++ normalizeValue v) ∧
    (∀ v f, generate_part_name "L" v f = "L " ++ normalizeValue v) ∧
    (∀ v f, generate_part_name "L_Iron" v f = "L " ++ normalizeValue v) ∧
    (∀ v f, generate_part_name "Crystal" v f = "XTAL " ++ normalizeValue v) ∧
    (∀ t v f,
      ¬(t = "R" ∨ t = "C" ∨ t = "C_Polarized" ∨ t = "L" ∨ t = "L_Iron" ∨ t = "Crystal") →
      generate_part_name t v f = normalizeValue v) ∧
    (∀ (c : Char) (pkg rest : List Char), (c = 'C' ∨ c = 'R' ∨ c = 'L') → pkg ≠ [] →
      (∀ ch ∈ pkg, isWordChar ch ∧ ch ≠ '_') →
      extract_package (String.mk (c :: '_' :: (pkg ++ '_' :: rest))) = String.mk pkg) ∧
    (∀ fp : String, (∀ c r, fp.data = c :: '_' :: r → ¬(c = 'C' ∨ c = 'R' ∨ c = 'L')) →
      extract_package fp = String.mk (firstUnderscoreSegment fp.data)) ∧
    generate_part_name "R" "10k" "R_0805_2012Metric" = "R 10k 0805" ∧
    generate_part_name "Crystal" "8MHz / 20pF" "Crystal_SMD_5032-2Pin" = "XTAL 8MHz/20pF" := by
  refine ⟨fun v f => by simp [generate_part_name], fun v f => by simp [generate_part_name],
    fun v f => by simp [generate_part_name], fun v f => by simp [generate_part_name],
    fun v f => by simp [generate_part_name], fun v f => by simp [generate_part_name],
    ?_, ?_, ?_, by decide, by decide⟩
  · intro t v f h
    push_neg at h
    obtain ⟨h1, h2, h3, h4, h5, h6⟩ := h
    simp [generate_part_name, h1, h2, h3, h4, h5, h6]
  · intro c pkg rest hc hne h
    have hd : (String.mk (c :: '_' :: (pkg ++ '_' :: rest))).data =
        c :: '_' :: (pkg ++ '_' :: rest) := rfl
    rw [extract_package, hd]
    have hcore : extract_package_core (c :: '_' :: (pkg ++ '_' :: rest)) = some pkg := by
      rw [extract_package_core, if_pos ⟨rfl, hc⟩]
      exact grabGroup_word_run rest pkg hne h
    rw [hcore]
  · intro fp h
    rw [extract_package, extract_package_core_none fp.data h]

/-- Witness for C5: the default branch at the unmapped family
`STM32U575CITx` and the package extraction on `R_0805_2012Metric`. -/
theorem c5_witness :
    generate_part_name "STM32U575CITx" "STM32U575CITx" "LQFP-48" = "STM32U575CITx" ∧
    extract_package (String.mk ('R' :: '_' :: (['0', '8', '0', '5'] ++ '_' :: ['2']))) =
      String.mk ['0', '8', '0', '5'] ∧
    extract_package "SOT-23" = String.mk (firstUnderscoreSegment "SOT-23".data) := by
  refine ⟨?_, ?_, ?_⟩
  · rw [c5_name_derivation.2.2.2.2.2.2.1 "STM32U575CITx" "STM32U575CITx" "LQFP-48" (by decide)]
    decide
  · exact c5_name_derivation.2.2.2.2.2.2.2.1 'R' ['0', '8', '0', '5'] ['2'] (by decide)
      (by decide) (by decide)
  · refine c5_name_derivation.2.2.2.2.2.2.2.2.1 "SOT-23" ?_
    intro c r heq
    have hdata : "SOT-23".data = ['S', 'O', 'T', '-', '2', '3'] := rfl
    rw [hdata] at heq
    simp at heq

/-! ## C6: category resolution -/

/-- Claim C6, supporting theorem (the claim itself fails on the code,
which accepts no external category map and warns about nothing): the
five-positional-argument call of `resolve_part_category` performed by
`part_manager.ensure_parts_exist` raises a `TypeError` against the
four-parameter signature; the path choice itself appends the extracted
package code for the mapped capacitor and resistor variants, and for an
unmapped family falls back to the supplier category path of the merged
record and then to `Miscellaneous`. -/
theorem c6_category_resolution :
    bindCall resolve_part_category_params 5 [] =
      Except.error "TypeError: too many positional arguments" ∧
    resolve_part_category_path "SA612A" (some { category_path := ["Mixers"] }) "" = ["Mixers"] ∧
    resolve_part_category_path "SA612A" (some {}) "" = ["Miscellaneous"] ∧
    resolve_part_category_path "SA612A" none "" = ["Miscellaneous"] ∧
    resolve_part_category_path "C" none "C_0805_2012Metric" =
      ["Capacitors", "Ceramic", "0805"] ∧
    resolve_part_category_path "C_Small" none "C_0603_1608Metric" =
      ["Capacitors", "Ceramic", "0603"] ∧
    resolve_part_category_path "R" none "R_0603_1608Metric" =
      ["Resistors", "Surface Mount", "0603"] ∧
    resolve_part_category_path "R_Small" none "R_0402_1005Metric" =
      ["Resistors", "Surface Mount", "0402"] ∧
    resolve_part_category_path "R_Network" none "R_Array_Convex_4x0402" =
      ["Resistors", "Surface Mount", "Array"] ∧
    resolve_part_category_path "RN" none "R_0805_2012Metric" =
      ["Resistors", "Surface Mount", "0805"] ∧
    resolve_part_category_path "D" (some { category_path := ["Diodes from Mouser"] }) "D_SOD-123" =
      ["Diodes", "Standard"] := by
  decide

/-! ## C9: Mouser credential requirement -/

/-- Claim C9: without the `MOUSER_API_KEY` value the Mouser fetcher
constructor raises, both pipeline entry points abort with that
configuration error before any BOM line is processed, and the error can
only arise there — with a non-empty key the constructor succeeds and the
script-copy pipeline processes every line. -/
theorem c9_mouser_credential :
    mouserFetcherInit none = Except.error mouserKeyMsg ∧
    (∀ k : String, k ≠ "" → mouserFetcherInit (some k) = Except.ok ()) ∧
    (∀ (env : SyncEnv) (entries : List BomEntry),
      ensure_parts_exist_importer none env entries =
        Except.error (StartErr.envError mouserKeyMsg)) ∧
    (∀ (env : SyncEnv) (entries : List BomEntry),
      ensure_parts_exist none env entries = Except.error (StartErr.envError mouserKeyMsg)) ∧
    (∀ (k : String) (env : SyncEnv) (entries : List BomEntry), k ≠ "" →
      ensure_parts_exist_importer (some k) env entries =
        Except.ok (entries.map fun e => processEntry env e)) := by
  refine ⟨rfl, ?_, fun env entries => rfl, fun env entries => rfl, ?_⟩
  · intro k hk
    simp [mouserFetcherInit, hk]
  · intro k env entries hk
    simp [ensure_parts_exist_importer, mouserFetcherInit, hk]

/-- Witness for C9: a concrete non-empty key passes the constructor and
the script-copy pipeline runs its loop. -/
theorem c9_witness :
    mouserFetcherInit (some "abc123") = Except.ok () ∧
    ensure_parts_exist_importer (some "abc123") emptyEnv [] = Except.ok [] := by
  refine ⟨c9_mouser_credential.2.1 "abc123" (by decide), ?_⟩
  rw [c9_mouser_credential.2.2.2.2 "abc123" emptyEnv [] (by decide)]
  rfl

/-! ## C10: the packaged pipeline raises TypeError -/

/-- Claim C10: the call `get_or_create_supplier(api, name="LCSC")` of
part_manager.py line 108 leaves the required parameter `pk` unfilled and
raises `TypeError`; the five-positional call of `resolve_part_category`
on line 156 would likewise raise were it reached; hence for every input
list the packaged `ensure_parts_exist` (with the Mouser key present, so
that the fetcher constructor passes) aborts with that `TypeError` and
processes no BOM line. -/
theorem c10_pipeline_type_error :
    bindCall get_or_create_supplier_params 1 ["name"] =
      Except.error "TypeError: missing required positional argument" ∧
    bindCall resolve_part_category_params 5 [] =
      Except.error "TypeError: too many positional arguments" ∧
    (∀ (k : String) (env : SyncEnv) (entries : List BomEntry), k ≠ "" →
      ensure_parts_exist (some k) env entries =
        Except.error (StartErr.typeError "TypeError: missing required positional argument")) := by
  refine ⟨by decide, by decide, ?_⟩
  intro k env entries hk
  simp [ensure_parts_exist, mouserFetcherInit, hk]
  rfl

/-- Witness for C10: the packaged pipeline on a one-line BOM with a
valid key aborts with the `TypeError` and resolves nothing. -/
theorem c10_witness :
    ensure_parts_exist (some "abc123") skuHitEnv [skuHitEntry] =
      Except.error (StartErr.typeError "TypeError: missing required positional argument") :=
  c10_pipeline_type_error.2.2 "abc123" skuHitEnv [skuHitEntry] (by decide)

end FMTransceiver
